import Mathlib

/-!
Shallow embedding of the correlation-ID propagation and span-enrichment
engine of `distributed-observability-tools`.

Python dictionaries with string keys are modelled as association lists
(`List (String × String)`), with lookup returning the first binding.
Python `Optional[str]` truthiness (`if x:` being false for both `None`
and `""`) is modelled by the explicit `optTruthy` test.  Fallible Python
code is modelled with `Except`.
-/

namespace DistObs

/-- Association-list model of a Python `dict[str, str]`; `dict.get(k)`
is lookup of the first binding of `k`. -/
abbrev HeaderMap := List (String × String)

/-- `headers.get(k)` — exact (case-sensitive) key lookup. -/
def lookupHeader (hs : HeaderMap) (k : String) : Option String :=
  (hs.find? (fun p => p.1 = k)).map (·.2)

/-- Python truthiness of an `Optional[str]`: `None` and `""` are falsy. -/
def optTruthy : Option String → Bool
  | none => false
  | some s => s ≠ ""

/-- Executable ASCII model of Python `str.lower()` (header names and
config values are ASCII; `String.toLower` itself is opaque to kernel
reduction, so lowercasing is mapped over the character list). -/
def toLowerStr (s : String) : String := String.mk (s.data.map Char.toLower)

/-- Executable ASCII model of Python `str.upper()`. -/
def toUpperStr (s : String) : String := String.mk (s.data.map Char.toUpper)

/-- Glob match of `fnmatch.fnmatch` restricted to the `*` and `?`
metacharacters (the repository's patterns use only `*`); both sides are
already lowercased by the caller `match_header_pattern`. -/
def globMatch : List Char → List Char → Bool
  | [], [] => true
  | '*' :: ps, [] => globMatch ps []
  | '*' :: ps, c :: cs => globMatch ps (c :: cs) || globMatch ('*' :: ps) cs
  | '?' :: ps, _ :: cs => globMatch ps cs
  | p :: ps, c :: cs => p = c && globMatch ps cs
  | _ :: _, [] => false
  | [], _ :: _ => false
termination_by ps cs => (ps.length, cs.length)

/-- `core/config.py::match_header_pattern`: case-insensitive wildcard
match of a header name against a pattern list, short-circuit OR; an
empty pattern list matches nothing. -/
def match_header_pattern (header_name : String) (patterns : List String) : Bool :=
  patterns.any (fun pat => globMatch (toLowerStr pat).data (toLowerStr header_name).data)

/-- `core/config.py::CorrelationConfig`. -/
structure CorrelationConfig where
  headers : List String := ["x-correlation-id", "x-request-id"]
  propagation : Bool := true
  generate_id : Bool := true
deriving Repr, DecidableEq

/-- `core/config.py::FastAPIConfig` (the fields the engine reads). -/
structure FastAPIConfig where
  enable_middleware : Bool := true
  capture_request_headers : List String :=
    ["x-correlation-id", "x-request-id", "correlation-id", "user-agent",
     "x-forwarded-for", "x-real-ip", "x-edge-location", "x-amz-cf-id"]
  redact_headers : List String := ["authorization", "cookie", "x-api-key", "api-key"]
  header_patterns : List String := []
deriving Repr, DecidableEq

/-- `core/config.py::HTTPClientConfig` (the fields the engine reads). -/
structure HTTPClientConfig where
  enable_httpx : Bool := true
deriving Repr, DecidableEq

/-- `core/config.py::TracingConfig` (the fields the engine reads;
`sampling_rate` is an optional ratio, modelled as an optional rational). -/
structure TracingConfig where
  service_name : String
  service_version : String := "1.0.0"
  collector_url : String := "http://host.docker.internal:4317"
  collector_protocol : String := "grpc"
  sampling_rate : Option ℚ := none
  correlation : CorrelationConfig := {}
deriving Repr, DecidableEq

/-- `FastAPIConfig.should_capture_header`: explicit allow-list
(case-insensitive) or wildcard-pattern match. -/
def FastAPIConfig.should_capture_header (c : FastAPIConfig) (header_name : String) : Bool :=
  (c.capture_request_headers.map toLowerStr).contains (toLowerStr header_name)
    || match_header_pattern header_name c.header_patterns

/-- `FastAPIConfig.should_redact_header`: membership of the lowercased
name in the lowercased redact list. -/
def FastAPIConfig.should_redact_header (c : FastAPIConfig) (header_name : String) : Bool :=
  (c.redact_headers.map toLowerStr).contains (toLowerStr header_name)

/-- The per-header body of `instrument_fastapi_app.request_hook`
(tracer.py lines 219-231): the value recorded under
`http.request.header.<name>` for a captured header, `none` when the
header is not captured. -/
def request_hook_capture_value (c : FastAPIConfig) (header_name header_value : String) :
    Option String :=
  if c.should_capture_header header_name then
    if c.should_redact_header header_name then some "[REDACTED]"
    else some header_value
  else none

/-! ## uuid4

`uuid.uuid4()` draws 16 random bytes, forces the version nibble to `4`
and the variant bits to `10`, and renders the 128-bit integer as 32
lowercase hex digits grouped `8-4-4-4-12`.  The random draw is an
explicit parameter `r`; everything after the draw is deterministic. -/

/-- Lowercase hex digit character for `d < 16` (`'%x'` formatting). -/
def hexChar (d : Nat) : Char :=
  if d < 10 then Char.ofNat (48 + d) else Char.ofNat (97 + (d - 10))

/-- Fixed-width big-endian hex rendering (`'%0*x'`): exactly `w` digits
of `n` (mod `16^w`), most significant first. -/
def hexDigits : Nat → Nat → List Char
  | 0, _ => []
  | w + 1, n => hexDigits w (n / 16) ++ [hexChar (n % 16)]

/-- Numeric value of a lowercase hex digit character. -/
def hexVal (c : Char) : Nat :=
  if c.toNat < 97 then c.toNat - 48 else c.toNat - 97 + 10

/-- Decode a big-endian hex digit list. -/
def decodeHex (l : List Char) : Nat :=
  l.foldl (fun a c => a * 16 + hexVal c) 0

/-- The canonical `8-4-4-4-12` grouping of a 32-digit list. -/
def uuidGroups (l : List Char) : List Char :=
  l.take 8 ++ '-' :: ((l.drop 8).take 4 ++ '-' ::
    (((l.drop 8).drop 4).take 4 ++ '-' ::
      ((((l.drop 8).drop 4).drop 4).take 4 ++ '-' ::
        (((l.drop 8).drop 4).drop 4).drop 4)))

/-- `str(uuid.UUID(int=n))`: 32 lowercase hex digits with hyphens. -/
def uuidFormat (n : Nat) : String :=
  String.mk (uuidGroups (hexDigits 32 n))

/-- The version/variant forcing of `uuid.UUID(int=r, version=4)`:
clear bits 76-79 and 62-63 of the 128-bit draw, then set version `4`
(bit pattern `0100` at 76-79) and variant `10` (at 62-63). -/
def uuidMask (r : Nat) : Nat :=
  ((r % 2 ^ 128) &&& ((2 ^ 128 - 1) ^^^ ((0xf000 <<< 64) ||| (0xc000 <<< 48))))
    ||| ((0x4000 <<< 64) ||| (0x8000 <<< 48))

/-- `str(uuid.uuid4())` as a function of the 16-byte random draw `r`. -/
def uuid4 (r : Nat) : String :=
  uuidFormat (uuidMask r)

/-! ## CorrelationManager (tracing/tracer.py lines 251-286) -/

/-- The scanning loop of `CorrelationManager.extract_correlation_id`:
for each configured name in order, `headers.get(name.lower())`; return
the first truthy (non-empty) value, else `None`.  The lookup key is the
lowercased *configured* name; the header-map key is compared exactly. -/
def extractScan (headers : HeaderMap) : List String → Option String
  | [] => none
  | name :: rest =>
    match lookupHeader headers (toLowerStr name) with
    | some v => if v ≠ "" then some v else extractScan headers rest
    | none => extractScan headers rest

/-- `CorrelationManager.extract_correlation_id` (see `extractScan`). -/
def extract_correlation_id (cfg : CorrelationConfig) (headers : HeaderMap) : Option String :=
  extractScan headers cfg.headers

/-- `CorrelationManager.generate_correlation_id`: `str(uuid.uuid4())`,
with the random draw `r` passed explicitly. -/
def generate_correlation_id (r : Nat) : String := uuid4 r

/-- `CorrelationManager.get_correlation_id`: extract, and if falsy and
`generate_id` is set, generate. -/
def get_correlation_id (cfg : CorrelationConfig) (headers : HeaderMap) (r : Nat) :
    Option String :=
  let correlation_id := extract_correlation_id cfg headers
  if ¬ optTruthy correlation_id ∧ cfg.generate_id then
    some (generate_correlation_id r)
  else correlation_id

/-- `CorrelationManager.get_propagation_headers`: empty when the id is
falsy or propagation is disabled; otherwise a single entry keyed by the
first configured header name (default `"x-correlation-id"` when the
configured list is empty). -/
def get_propagation_headers (cfg : CorrelationConfig) (correlation_id : Option String) :
    HeaderMap :=
  if ¬ optTruthy correlation_id ∨ ¬ cfg.propagation then []
  else
    let header_name := cfg.headers.headD "x-correlation-id"
    [(header_name, correlation_id.getD "")]

/-! ## Spans

Span attributes are string-keyed scalars (`set_attribute` overwrites an
existing key); `record_exception` appends an exception event and
`set_status(Status(StatusCode.ERROR, str(e)))` stores the message. -/

/-- Scalar span-attribute value (string or integer). -/
inductive AttrVal where
  | s (v : String)
  | i (v : Int)
deriving Repr, DecidableEq

/-- `str()` of an attribute value, as used when reading an attribute
back as a correlation id. -/
def AttrVal.str : AttrVal → String
  | .s v => v
  | .i v => toString v

/-- Exceptions surfaced through the middleware/client control flow. -/
inductive Exc where
  /-- an application (handler) exception, carrying `str(e)` -/
  | handlerExc (msg : String)
  /-- reading a local variable that was never assigned -/
  | nameError (var : String)
  /-- invoking a method on `None` -/
  | attributeError (msg : String)
deriving Repr, DecidableEq

/-- `str(e)` for a modelled exception. -/
def Exc.message : Exc → String
  | .handlerExc msg => msg
  | .nameError var => "local variable referenced before assignment: " ++ var
  | .attributeError msg => msg

/-- State of the current span: whether it is recording, its attribute
set, recorded exception events, and its (error) status message. -/
structure SpanState where
  recording : Bool
  attrs : List (String × AttrVal) := []
  events : List Exc := []
  statusMessage : Option String := none
deriving Repr, DecidableEq

/-- `span.set_attribute(k, v)`: overwrite the binding of `k`, else
append it. -/
def setAttr (s : SpanState) (k : String) (v : AttrVal) : SpanState :=
  if s.attrs.any (fun p => p.1 = k) then
    { s with attrs := s.attrs.map (fun p => if p.1 = k then (k, v) else p) }
  else
    { s with attrs := s.attrs ++ [(k, v)] }

/-- Lookup of a span attribute (`key in span.attributes` / indexing). -/
def getAttr (s : SpanState) (k : String) : Option AttrVal :=
  (s.attrs.find? (fun p => p.1 = k)).map (·.2)

/-- `SpanManager.record_exception` (tracer.py lines 328-331):
`span.record_exception(e)` then `span.set_status(Status(ERROR, str(e)))`. -/
def record_exception (s : SpanState) (e : Exc) : SpanState :=
  { s with events := s.events ++ [e], statusMessage := some e.message }

/-! ## RequestTracingMiddleware.dispatch (framework/fastapi.py lines 53-164)

The downstream handler (`call_next`) is modelled as a fixed outcome
(`Except Exc Response`) produced afresh at each invocation; the model
additionally counts how many times it is invoked.  The local variable
`correlation_id` of `dispatch` is bound only inside the
`is_recording()` branch; reading it when the branch was skipped raises
`NameError` (Python `UnboundLocalError`), which the model makes
explicit. -/

/-- The request fields `dispatch` reads. -/
structure Request where
  headers : HeaderMap
  method : String := "GET"
  path : String := "/"
  clientHost : String := "unknown"
deriving Repr, DecidableEq

/-- An HTTP response: status, body, mutable header map. -/
structure Response where
  status : Nat := 200
  body : String := ""
  headers : HeaderMap := []
deriving Repr, DecidableEq

/-- `response.headers[k] = v`. -/
def Response.setHeader (r : Response) (k v : String) : Response :=
  if r.headers.any (fun p => p.1 = k) then
    { r with headers := r.headers.map (fun p => if p.1 = k then (k, v) else p) }
  else
    { r with headers := r.headers ++ [(k, v)] }

deriving instance DecidableEq for Except

/-- Outcome of one `dispatch`: the result returned (or exception
propagated) to the ASGI caller, the final span state, and the number of
times the downstream handler ran. -/
structure DispatchOutcome where
  result : Except Exc Response
  span : SpanState
  handlerCalls : Nat
deriving Repr, DecidableEq

/-- The span-enrichment block of `dispatch` (fastapi.py lines 79-113),
executed when the span is recording and the correlation id is truthy. -/
def enrichSpan (tcfg : TracingConfig) (req : Request) (span : SpanState)
    (cid : String) : SpanState :=
  let headers_dict := req.headers
  let edge_location := lookupHeader headers_dict "x-edge-location"
  let cf_id := lookupHeader headers_dict "x-amz-cf-id"
  let request_id := lookupHeader headers_dict "x-request-id"
  let condSet (s : SpanState) (v : Option String) (k : String) : SpanState :=
    match v with
    | some x => if x ≠ "" ∧ x ≠ "not-found" then setAttr s k (.s x) else s
    | none => s
  let s := setAttr span "correlation_id" (.s cid)
  let s := setAttr s "service.name" (.s tcfg.service_name)
  let s := setAttr s "service.port" (.i 8000)
  let s := setAttr s "request.method" (.s req.method)
  let s := setAttr s "request.path" (.s req.path)
  let s := setAttr s "client.ip" (.s req.clientHost)
  let s := condSet s edge_location "cloudfront.edge_location"
  let s := condSet s cf_id "cloudfront.distribution_id"
  let s := condSet s request_id "cloudfront.request_id"
  let s := setAttr s "correlation.id" (.s cid)
  let s := setAttr s "x-correlation-id" (.s cid)
  let s := setAttr s "http.request.header.x-correlation-id" (.s cid)
  let s := condSet s edge_location "x-edge-location"
  let s := condSet s request_id "x-request-id"
  let s := condSet s cf_id "x-amz-cf-id"
  s

/-- Body of the outer `try` of `dispatch` (fastapi.py lines 70-155):
enrichment, handler invocation, response stamping, and the inner
handler-exception branch.  `r` is the uuid draw used if an id must be
generated; `procTime` is the string rendering of the measured
processing time. -/
def dispatchTry (tcfg : TracingConfig) (req : Request) (span : SpanState)
    (handler : Except Exc Response) (r : Nat) (procTime : String) : DispatchOutcome :=
  -- `correlation_id` is assigned only inside the `is_recording()` branch;
  -- `none` here models the variable being unbound.
  let boundCid : Option (Option String) :=
    if span.recording then some (get_correlation_id tcfg.correlation req.headers r)
    else none
  let span1 : SpanState :=
    match boundCid with
    | some cidOpt =>
      if optTruthy cidOpt then
        enrichSpan tcfg req span (cidOpt.getD "")
      else span
    | none => span
  match handler with
  | .error e =>
    -- inner `except`: record on the span when recording, then re-raise
    let span2 := if span1.recording then record_exception span1 e else span1
    ⟨.error e, span2, 1⟩
  | .ok resp =>
    let resp1 := resp.setHeader "X-Service-Name" tcfg.service_name
    match boundCid with
    | none =>
      -- `if correlation_id:` on an unbound local: NameError, caught by the
      -- inner `except` (no recording here) and re-raised; `resp1` is discarded
      ⟨.error (.nameError "correlation_id"), span1, 1⟩
    | some cidOpt =>
      let resp2 :=
        if optTruthy cidOpt then resp1.setHeader "X-Correlation-ID" (cidOpt.getD "")
        else resp1
      let resp3 := resp2.setHeader "X-Processing-Time" procTime
      ⟨.ok resp3, span1, 1⟩

/-- `RequestTracingMiddleware.dispatch`: skip when the middleware is
disabled; otherwise run the outer `try`, and on any escaped exception
invoke the handler a second time uninstrumented, answering a minimal
500 response if that also fails (fastapi.py lines 157-164). -/
def dispatch (fcfg : FastAPIConfig) (tcfg : TracingConfig) (req : Request)
    (span : SpanState) (handler : Except Exc Response) (r : Nat)
    (procTime : String) : DispatchOutcome :=
  if ¬ fcfg.enable_middleware then ⟨handler, span, 1⟩
  else
    let o := dispatchTry tcfg req span handler r procTime
    match o.result with
    | .ok resp => ⟨.ok resp, o.span, o.handlerCalls⟩
    | .error _ =>
      match handler with
      | .ok resp => ⟨.ok resp, o.span, o.handlerCalls + 1⟩
      | .error _ =>
        ⟨.ok { status := 500, body := "Internal Server Error", headers := [] },
          o.span, o.handlerCalls + 1⟩

/-! ## CorrelatedClient (utils/client.py lines 70-113) -/

/-- `CorrelatedClient._extract_current_correlation_id`: when the current
span is recording, return `str()` of the first attribute among
`correlation_id`, `correlation.id`, `x-correlation-id`; else `None`. -/
def _extract_current_correlation_id (span : SpanState) : Option String :=
  if span.recording then
    (["correlation_id", "correlation.id", "x-correlation-id"].findSome?
      (fun k => getAttr span k)).map AttrVal.str
  else none

/-- `CorrelatedClient._get_correlation_headers`: propagation headers for
the id read off the current span, empty when the id is falsy. -/
def _get_correlation_headers (ccfg : CorrelationConfig) (span : SpanState) : HeaderMap :=
  if optTruthy (_extract_current_correlation_id span) then
    get_propagation_headers ccfg (_extract_current_correlation_id span)
  else []

/-- The header set dispatched by `CorrelatedClient.request`: caller
headers plus each correlation header whose key is not already present
(case-insensitively) in the accumulated map.  When `enable_httpx` is
false the local `correlation_headers` is never assigned, so the debug
log at client.py line 83 raises `NameError` before dispatch. -/
def client_request_headers (hcfg : HTTPClientConfig) (ccfg : CorrelationConfig)
    (span : SpanState) (headers : Option HeaderMap) : Except Exc HeaderMap :=
  let request_headers := headers.getD []
  if hcfg.enable_httpx then
    let correlation_headers := _get_correlation_headers ccfg span
    .ok (correlation_headers.foldl
      (fun acc kv =>
        if (acc.map (fun p => (toLowerStr p.1))).contains (toLowerStr kv.1) then acc
        else acc ++ [kv])
      request_headers)
  else .error (.nameError "correlation_headers")

/-! ## TracingManager (tracing/tracer.py lines 32-154)

The external collaborator calls `setup()` makes (resource creation,
tracer-provider construction, sampler construction, exporter
construction per protocol, processor registration, installing the
global provider, tracer creation) are modelled by a record of their
outcomes; `setup` sequences them, mutating the manager state exactly
where the source assigns `self._...`, and its outer `try/except`
converts any failure into a `false` return with the state as mutated so
far. -/

/-- Outcomes of the external collaborator calls made during `setup`. -/
structure CollabResults where
  resourceCreate : Except String Unit := .ok ()
  tracerProviderInit : Except String Unit := .ok ()
  samplerInit : Except String Unit := .ok ()
  grpcExporterInit : Except String Unit := .ok ()
  httpExporterInit : Except String Unit := .ok ()
  addSpanProcessor : Except String Unit := .ok ()
  setGlobalProvider : Except String Unit := .ok ()
  getTracer : Except String Unit := .ok ()
  samplerAvailable : Bool := true
deriving Repr, DecidableEq

/-- `TracingManager` state: the config plus whether each of
`_tracer_provider`, `_tracer`, `_span_processor` is non-`None`, and the
`_is_setup` flag. -/
structure ManagerState where
  config : TracingConfig
  tracer_provider : Bool := false
  tracer : Bool := false
  span_processor : Bool := false
  is_setup : Bool := false
deriving Repr, DecidableEq

/-- `TracingManager.__init__`. -/
def initManager (cfg : TracingConfig) : ManagerState := { config := cfg }

/-- `TracingManager.setup`: the whole body is wrapped in `try/except`;
any collaborator failure yields `(false, state-so-far)`, full success
yields `(true, ...)` with `_is_setup` set. -/
def setup (c : CollabResults) (s : ManagerState) : Bool × ManagerState :=
  match c.resourceCreate with
  | .error _ => (false, s)
  | .ok _ =>
  match c.tracerProviderInit with
  | .error _ => (false, s)
  | .ok _ =>
  let s := { s with tracer_provider := true }
  match (if (s.config.sampling_rate.isSome ∧ c.samplerAvailable : Bool) then
           c.samplerInit else .ok ()) with
  | .error _ => (false, s)
  | .ok _ =>
  match (if toUpperStr s.config.collector_protocol = "HTTP" then c.httpExporterInit
         else c.grpcExporterInit) with
  | .error _ => (false, s)
  | .ok _ =>
  let s := { s with span_processor := true }
  match c.addSpanProcessor with
  | .error _ => (false, s)
  | .ok _ =>
  match c.setGlobalProvider with
  | .error _ => (false, s)
  | .ok _ =>
  match c.getTracer with
  | .error _ => (false, s)
  | .ok _ =>
  let s := { s with tracer := true, is_setup := true }
  (true, s)

/-- `TracingManager.is_ready`: `self._is_setup and self._tracer is not None`. -/
def is_ready (s : ManagerState) : Bool :=
  s.is_setup && s.tracer

/-- Invoking `.shutdown()` on an optional collaborator slot: calling it
on `None` would raise; on a present collaborator it completes (the
collaborator's shutdown contract is total). -/
def methodShutdown (present : Bool) : Except Exc Unit :=
  if present then .ok ()
  else .error (.attributeError "NoneType object has no attribute shutdown")

/-- `TracingManager.shutdown`: shut the span processor and the tracer
provider down, each guarded by a presence test; the state is not
otherwise changed. -/
def shutdown (s : ManagerState) : Except Exc ManagerState :=
  match (if s.span_processor then methodShutdown s.span_processor else .ok ()) with
  | .error e => .error e
  | .ok _ =>
    match (if s.tracer_provider then methodShutdown s.tracer_provider else .ok ()) with
    | .error e => .error e
    | .ok _ => .ok s

/-! ## Helper lemmas -/

theorem extractScan_nil (hs : HeaderMap) : extractScan hs [] = none := rfl

theorem extractScan_cons (hs : HeaderMap) (n : String) (rest : List String) :
    extractScan hs (n :: rest) =
      match lookupHeader hs (toLowerStr n) with
      | some v => if v ≠ "" then some v else extractScan hs rest
      | none => extractScan hs rest := rfl

/-- `extractScan` skips a name exactly when its lookup is falsy. -/
theorem extractScan_cons_falsy (hs : HeaderMap) (n : String) (rest : List String)
    (h : ¬ optTruthy (lookupHeader hs (toLowerStr n))) :
    extractScan hs (n :: rest) = extractScan hs rest := by
  rw [extractScan_cons]
  cases hl : lookupHeader hs (toLowerStr n) with
  | none => rfl
  | some v =>
    rw [hl] at h
    have hv : v = "" := by simpa [optTruthy] using h
    subst hv
    simp

theorem extractScan_cons_truthy (hs : HeaderMap) (n : String) (rest : List String)
    (v : String) (hl : lookupHeader hs (toLowerStr n) = some v) (hv : v ≠ "") :
    extractScan hs (n :: rest) = some v := by
  rw [extractScan_cons, hl]
  simp [hv]

/-- The scan depends on the configured names only through their
lowercasings. -/
theorem extractScan_toLower_eq (hs : HeaderMap) :
    ∀ l₁ l₂ : List String, l₁.map toLowerStr = l₂.map toLowerStr →
      extractScan hs l₁ = extractScan hs l₂ := by
  intro l₁
  induction l₁ with
  | nil => intro l₂ h; cases l₂ <;> simp_all [extractScan]
  | cons n rest ih =>
    intro l₂ h
    cases l₂ with
    | nil => simp at h
    | cons m rest₂ =>
      simp only [List.map_cons, List.cons.injEq] at h
      rw [extractScan_cons, extractScan_cons, h.1, ih rest₂ h.2]

/-- Skipping a prefix of names none of which yields a truthy value. -/
theorem extractScan_append_falsy (hs : HeaderMap) (pre l : List String)
    (h : ∀ m ∈ pre, ¬ optTruthy (lookupHeader hs (toLowerStr m))) :
    extractScan hs (pre ++ l) = extractScan hs l := by
  induction pre with
  | nil => rfl
  | cons n rest ih =>
    rw [List.cons_append, extractScan_cons_falsy hs n _ (h n (by simp))]
    exact ih (fun m hm => h m (by simp [hm]))

/-- A scan over names none of which yields a truthy value returns `none`. -/
theorem extractScan_all_falsy (hs : HeaderMap) (l : List String)
    (h : ∀ m ∈ l, ¬ optTruthy (lookupHeader hs (toLowerStr m))) :
    extractScan hs l = none := by
  have := extractScan_append_falsy hs l [] h
  simpa using this

/-! ## Claims -/

/-- C3, counterexample: the default configuration lists
`x-correlation-id`, and the header map binds that very header under the
casing `X-Correlation-ID` with value `req-42`; yet
`extract_correlation_id` returns `none`, not `some "req-42"`, because
the lookup lowercases only the configured name and compares the map key
exactly. -/
theorem C3_counterexample :
    toLowerStr "X-Correlation-ID" = "x-correlation-id" ∧
    "x-correlation-id" ∈ ({} : CorrelationConfig).headers ∧
    extract_correlation_id {} [("X-Correlation-ID", "req-42")] = none := by
  refine ⟨rfl, by simp, rfl⟩

/-- C3, amended: `extract_correlation_id` matches the *configured*
header names case-insensitively (it depends on the configured list only
through its lowercasing), but looks the lowercased name up in the header
map by exact key; over header maps keyed by those lowercased names it
returns the value of the earliest (highest-priority) configured header
with a non-empty value, and `none` when no configured header has a
non-empty value. -/
theorem C3_extract_amended (cfg cfg' : CorrelationConfig) (hs : HeaderMap) :
    (cfg.headers.map toLowerStr = cfg'.headers.map toLowerStr →
      extract_correlation_id cfg hs = extract_correlation_id cfg' hs) ∧
    (∀ pre n rest v, cfg.headers = pre ++ n :: rest →
      (∀ m ∈ pre, ¬ optTruthy (lookupHeader hs (toLowerStr m))) →
      lookupHeader hs (toLowerStr n) = some v → v ≠ "" →
      extract_correlation_id cfg hs = some v) ∧
    ((∀ m ∈ cfg.headers, ¬ optTruthy (lookupHeader hs (toLowerStr m))) →
      extract_correlation_id cfg hs = none) := by
  refine ⟨fun h => extractScan_toLower_eq hs _ _ h, ?_, ?_⟩
  · intro pre n rest v hsplit hpre hl hv
    unfold extract_correlation_id
    rw [hsplit, extractScan_append_falsy hs pre _ hpre,
      extractScan_cons_truthy hs n rest v hl hv]
  · intro h
    exact extractScan_all_falsy hs _ h

/-- C3, witness for the amended claim: under the default configuration,
a lowercase-keyed map yields the configured header's value even when the
configured casing differs; priority and the not-found case behave as
amended. -/
theorem C3_amended_witness :
    extract_correlation_id { headers := ["X-Correlation-ID", "x-request-id"] }
      [("x-correlation-id", "req-42")] = some "req-42" ∧
    extract_correlation_id {} [("x-request-id", "b"), ("x-correlation-id", "a")] = some "a" ∧
    extract_correlation_id {} [("unrelated", "z")] = none := by
  refine ⟨?_, ?_, ?_⟩
  · exact (C3_extract_amended { headers := ["X-Correlation-ID", "x-request-id"] }
      {} [("x-correlation-id", "req-42")]).2.1 [] "X-Correlation-ID" ["x-request-id"]
      "req-42" rfl (by simp) rfl (by decide)
  · exact (C3_extract_amended {} {} [("x-request-id", "b"), ("x-correlation-id", "a")]).2.1
      [] "x-correlation-id" ["x-request-id"] "a" rfl (by simp) rfl (by decide)
  · exact (C3_extract_amended {} {} [("unrelated", "z")]).2.2 (by decide)

/-- C4: `get_propagation_headers` returns the empty map when the id is
unresolved (`None`/empty) or propagation is disabled; otherwise it
returns exactly one entry, keyed by the first (highest-priority)
configured header name, mapped to the id. -/
theorem C4_get_propagation_headers (cfg : CorrelationConfig) (id? : Option String) :
    ((¬ optTruthy id? = true ∨ cfg.propagation = false) →
      get_propagation_headers cfg id? = []) ∧
    (∀ id n rest, id? = some id → id ≠ "" → cfg.propagation = true →
      cfg.headers = n :: rest →
      get_propagation_headers cfg id? = [(n, id)]) := by
  constructor
  · intro h
    unfold get_propagation_headers
    rcases h with h | h
    · simp [h]
    · simp [h]
  · intro id n rest hid hne hprop hhd
    subst hid
    unfold get_propagation_headers
    have ht : optTruthy (some id) = true := by simp [optTruthy, hne]
    rw [if_neg (by simp [ht, hprop])]
    simp [hhd]

/-- C4, witness: scenario A's propagation map, plus the disabled and
unresolved cases, via `C4_get_propagation_headers` at concrete inputs. -/
theorem C4_witness :
    get_propagation_headers {} (some "req-42") = [("x-correlation-id", "req-42")] ∧
    get_propagation_headers { propagation := false } (some "req-42") = [] ∧
    get_propagation_headers {} none = [] := by
  refine ⟨?_, ?_, ?_⟩
  · exact (C4_get_propagation_headers {} (some "req-42")).2 "req-42"
      "x-correlation-id" ["x-request-id"] rfl (by decide) rfl rfl
  · exact (C4_get_propagation_headers { propagation := false } (some "req-42")).1
      (Or.inr rfl)
  · exact (C4_get_propagation_headers {} none).1 (Or.inl (by decide))

/-- C7: `should_redact_header` holds exactly when the lowercased name is
in the (lowercased) redact list; it reads neither the allow-list nor the
pattern list, so replacing both leaves it unchanged (hence a header can
be captured and redacted simultaneously — see the witness); and the
request hook records the literal `"[REDACTED]"` as the captured value of
a redacted header, never the real value. -/
theorem C7_redaction_independent (c : FastAPIConfig) (h v : String) :
    (c.should_redact_header h = true ↔
      toLowerStr h ∈ c.redact_headers.map toLowerStr) ∧
    (∀ cap pat, FastAPIConfig.should_redact_header
        { c with capture_request_headers := cap, header_patterns := pat } h =
      c.should_redact_header h) ∧
    (c.should_capture_header h = true → c.should_redact_header h = true →
      request_hook_capture_value c h v = some "[REDACTED]") := by
  refine ⟨?_, fun cap pat => rfl, ?_⟩
  · simp [FastAPIConfig.should_redact_header]
  · intro hcap hred
    unfold request_hook_capture_value
    rw [if_pos hcap, if_pos hred]

/-- C7, witness (scenario D): with `authorization` in both the allow-list
and the redact list, the header is captured *and* redacted, and the
recorded value is the literal `"[REDACTED]"`, not the real value. -/
theorem C7_witness :
    ({ capture_request_headers := ["authorization", "user-agent"],
       redact_headers := ["authorization"] } : FastAPIConfig).should_capture_header
        "Authorization" = true ∧
    ({ capture_request_headers := ["authorization", "user-agent"],
       redact_headers := ["authorization"] } : FastAPIConfig).should_redact_header
        "Authorization" = true ∧
    request_hook_capture_value
      { capture_request_headers := ["authorization", "user-agent"],
        redact_headers := ["authorization"] } "Authorization" "Bearer hunter2" =
      some "[REDACTED]" := by
  refine ⟨by decide, by decide, ?_⟩
  exact (C7_redaction_independent
    { capture_request_headers := ["authorization", "user-agent"],
      redact_headers := ["authorization"] } "Authorization" "Bearer hunter2").2.2
    (by decide) (by decide)

/-- C9: `shutdown` never raises and is idempotent — from any manager
state (never set up, failed setup, successful setup) it returns
successfully with the state unchanged, so a second call succeeds too. -/
theorem C9_shutdown_idempotent (s : ManagerState) :
    shutdown s = .ok s ∧ (shutdown s).bind shutdown = .ok s := by
  have h1 : shutdown s = .ok s := by
    unfold shutdown methodShutdown
    cases hsp : s.span_processor <;> cases htp : s.tracer_provider <;> simp
  exact ⟨h1, by rw [h1]; simpa [Except.bind] using h1⟩

/-- C2: `setup` is a total function (the whole body sits under
`try/except`, so no collaborator failure escapes to the caller); on a
fresh manager it returns `true` exactly when every collaborator call in
the sequence succeeds, and `is_ready` of the resulting state equals the
returned flag — so any failure yields `false` with `is_ready` false, and
full success yields `true` with `is_ready` true. -/
theorem C2_setup_never_fails_startup (c : CollabResults) (cfg : TracingConfig) :
    is_ready (setup c (initManager cfg)).2 = (setup c (initManager cfg)).1 ∧
    ((setup c (initManager cfg)).1 = true ↔
      c.resourceCreate = .ok () ∧ c.tracerProviderInit = .ok () ∧
      (if (cfg.sampling_rate.isSome ∧ c.samplerAvailable : Bool) then
        c.samplerInit else .ok ()) = .ok () ∧
      (if toUpperStr cfg.collector_protocol = "HTTP" then c.httpExporterInit
        else c.grpcExporterInit) = .ok () ∧
      c.addSpanProcessor = .ok () ∧ c.setGlobalProvider = .ok () ∧
      c.getTracer = .ok ()) := by
  obtain ⟨r1, r2, r3, r4, r5, r6, r7, r8, sa⟩ := c
  simp only [setup, is_ready, initManager]
  constructor <;>
  · repeat' split
    all_goals simp_all

/-- C2, witness: with all collaborators succeeding, `setup` returns
`true` and `is_ready` holds; with an unreachable-endpoint exporter
failure (scenario E), `setup` returns `false` and `is_ready` is false. -/
theorem C2_witness :
    (setup {} (initManager { service_name := "svc" })).1 = true ∧
    is_ready (setup {} (initManager { service_name := "svc" })).2 = true ∧
    (setup { grpcExporterInit := .error "unreachable" }
      (initManager { service_name := "svc" })).1 = false ∧
    is_ready (setup { grpcExporterInit := .error "unreachable" }
      (initManager { service_name := "svc" })).2 = false := by
  have hok := C2_setup_never_fails_startup {} { service_name := "svc" }
  have hbad := C2_setup_never_fails_startup { grpcExporterInit := .error "unreachable" }
    { service_name := "svc" }
  have h1 : (setup {} (initManager { service_name := "svc" })).1 = true :=
    hok.2.mpr ⟨rfl, rfl, by decide, by decide, rfl, rfl, rfl⟩
  have h2 : (setup { grpcExporterInit := .error "unreachable" }
      (initManager { service_name := "svc" })).1 = false := by
    cases hfl : (setup { grpcExporterInit := .error "unreachable" }
        (initManager { service_name := "svc" })).1 with
    | false => rfl
    | true => exact absurd ((hbad.2.mp hfl).2.2.2.1) (by decide)
  refine ⟨h1, hok.1.trans h1, h2, hbad.1.trans h2⟩

/-- A lookup that succeeds in the front map is unchanged by appending. -/
theorem lookupHeader_append_left (hs t : HeaderMap) (k : String)
    (h : (lookupHeader hs k).isSome) :
    lookupHeader (hs ++ t) k = lookupHeader hs k := by
  unfold lookupHeader at *
  rw [List.find?_append]
  cases hf : hs.find? (fun p => p.1 = k) with
  | none => rw [hf] at h; simp at h
  | some p => simp [hf]

/-- `get_propagation_headers` is empty or a single entry. -/
theorem get_propagation_headers_nil_or_single (cfg : CorrelationConfig)
    (id? : Option String) :
    get_propagation_headers cfg id? = [] ∨
      ∃ n v, get_propagation_headers cfg id? = [(n, v)] := by
  unfold get_propagation_headers
  split
  · exact Or.inl rfl
  · exact Or.inr ⟨_, _, rfl⟩

/-- `_get_correlation_headers` is empty or a single entry, and is empty
whenever no truthy correlation id is readable off the current span. -/
theorem _get_correlation_headers_struct (ccfg : CorrelationConfig) (span : SpanState) :
    (¬ optTruthy (_extract_current_correlation_id span) = true →
      _get_correlation_headers ccfg span = []) ∧
    (_get_correlation_headers ccfg span = [] ∨
      ∃ n v, _get_correlation_headers ccfg span = [(n, v)]) := by
  constructor
  · intro h
    unfold _get_correlation_headers
    simp [h]
  · unfold _get_correlation_headers
    split
    · exact get_propagation_headers_nil_or_single ccfg _
    · exact Or.inl rfl

/-- C8: with httpx instrumentation enabled, `CorrelatedClient.request`
dispatches the caller's headers with each auto-generated correlation
header merged in only when its key is not already present
(case-insensitively); caller-set values are never overridden, and when
no correlation id is resolvable from the current span the dispatched
headers equal the caller's exactly. -/
theorem C8_client_merge (hcfg : HTTPClientConfig) (ccfg : CorrelationConfig)
    (span : SpanState) (caller : HeaderMap) (henable : hcfg.enable_httpx = true) :
    ∃ m, client_request_headers hcfg ccfg span (some caller) = .ok m ∧
      (∀ k, (lookupHeader caller k).isSome →
        lookupHeader m k = lookupHeader caller k) ∧
      (¬ optTruthy (_extract_current_correlation_id span) = true → m = caller) ∧
      (∀ n v, _get_correlation_headers ccfg span = [(n, v)] →
        ((caller.map (fun p => toLowerStr p.1)).contains (toLowerStr n) = false →
          m = caller ++ [(n, v)]) ∧
        ((caller.map (fun p => toLowerStr p.1)).contains (toLowerStr n) = true →
          m = caller)) := by
  have hm : client_request_headers hcfg ccfg span (some caller) =
      .ok ((_get_correlation_headers ccfg span).foldl
        (fun acc kv =>
          if (acc.map (fun p => toLowerStr p.1)).contains (toLowerStr kv.1) then acc
          else acc ++ [kv]) caller) := by
    unfold client_request_headers
    rw [henable]
    simp
  rcases (_get_correlation_headers_struct ccfg span).2 with hnil | ⟨n, v, hone⟩
  · refine ⟨caller, by rw [hm, hnil]; rfl, fun k _ => rfl, fun _ => rfl, ?_⟩
    intro n v hcontra
    rw [hnil] at hcontra
    exact absurd hcontra (by simp)
  · rw [hone] at hm
    simp only [List.foldl_cons, List.foldl_nil] at hm
    by_cases hc : (caller.map (fun p => toLowerStr p.1)).contains (toLowerStr n) = true
    · rw [if_pos hc] at hm
      refine ⟨caller, hm, fun k _ => rfl, fun _ => rfl, ?_⟩
      intro n' v' hone'
      rw [hone] at hone'
      obtain ⟨hn, hv⟩ : n = n' ∧ v = v' := by
        constructor <;> [exact congrArg (fun l => (l.headD ("", "")).1) hone';
          exact congrArg (fun l => (l.headD ("", "")).2) hone']
      subst hn; subst hv
      exact ⟨fun hfalse => absurd (hc.symm.trans hfalse) (by decide), fun _ => rfl⟩
    · rw [if_neg hc] at hm
      refine ⟨caller ++ [(n, v)], hm, ?_, ?_, ?_⟩
      · intro k hk
        exact lookupHeader_append_left caller [(n, v)] k hk
      · intro hfalsy
        have := (_get_correlation_headers_struct ccfg span).1 hfalsy
        rw [hone] at this
        exact absurd this (by simp)
      · intro n' v' hone'
        rw [hone] at hone'
        obtain ⟨hn, hv⟩ : n = n' ∧ v = v' := by
          constructor <;> [exact congrArg (fun l => (l.headD ("", "")).1) hone';
            exact congrArg (fun l => (l.headD ("", "")).2) hone']
        subst hn; subst hv
        exact ⟨fun _ => rfl, fun htrue => absurd htrue hc⟩

/-- C8, witness: a caller-set `X-Correlation-Id` (different casing)
blocks auto-injection; a fresh key is merged after the caller's entries;
a non-recording span leaves the caller's headers untouched. -/
theorem C8_witness :
    client_request_headers {} {}
      { recording := true, attrs := [("correlation_id", .s "req-42")] }
      (some [("X-Correlation-Id", "caller-set")]) =
      .ok [("X-Correlation-Id", "caller-set")] ∧
    client_request_headers {} {}
      { recording := true, attrs := [("correlation_id", .s "req-42")] }
      (some [("accept", "json")]) =
      .ok [("accept", "json"), ("x-correlation-id", "req-42")] ∧
    client_request_headers {} {} { recording := false }
      (some [("accept", "json")]) = .ok [("accept", "json")] := by
  refine ⟨?_, ?_, ?_⟩
  · obtain ⟨m, hm, _, _, hstruct⟩ := C8_client_merge {} {}
      { recording := true, attrs := [("correlation_id", .s "req-42")] }
      [("X-Correlation-Id", "caller-set")] rfl
    have := (hstruct "x-correlation-id" "req-42" (by decide)).2 (by decide)
    rw [hm, this]
  · obtain ⟨m, hm, _, _, hstruct⟩ := C8_client_merge {} {}
      { recording := true, attrs := [("correlation_id", .s "req-42")] }
      [("accept", "json")] rfl
    have := (hstruct "x-correlation-id" "req-42" (by decide)).1 (by decide)
    rw [hm, this]
    rfl
  · obtain ⟨m, hm, _, hempty, _⟩ := C8_client_merge {} {} { recording := false }
      [("accept", "json")] rfl
    rw [hm, hempty (by decide)]

/-- C1: evidence of the code bug.  With the middleware enabled, a
recording span, and a handler raising `boom`, the inner handler branch
does record the exception on the span — but the re-raised exception is
then caught by the middleware's outer `except`, which invokes the
handler a *second* time and, when it fails again, returns a substitute
500 response: the handler exception is never propagated to the caller,
contradicting the inline comment "Re-raise to maintain normal error
handling" and the spec's never-swallow contract. -/
theorem C1_handler_exception_swallowed :
    (dispatch {} { service_name := "svc" }
      { headers := [("x-correlation-id", "req-42")] } { recording := true }
      (.error (.handlerExc "boom")) 0 "0.001").result =
      .ok { status := 500, body := "Internal Server Error", headers := [] } ∧
    (dispatch {} { service_name := "svc" }
      { headers := [("x-correlation-id", "req-42")] } { recording := true }
      (.error (.handlerExc "boom")) 0 "0.001").handlerCalls = 2 ∧
    (dispatch {} { service_name := "svc" }
      { headers := [("x-correlation-id", "req-42")] } { recording := true }
      (.error (.handlerExc "boom")) 0 "0.001").span.events = [.handlerExc "boom"] ∧
    (dispatch {} { service_name := "svc" }
      { headers := [("x-correlation-id", "req-42")] } { recording := true }
      (.error (.handlerExc "boom")) 0 "0.001").span.statusMessage = some "boom" ∧
    (dispatch {} { service_name := "svc" }
      { headers := [("x-correlation-id", "req-42")] } { recording := true }
      (.error (.handlerExc "boom")) 0 "0.001").result ≠
      .error (.handlerExc "boom") := by
  refine ⟨rfl, rfl, rfl, rfl, by decide⟩

/-- C10: with the middleware enabled and a non-recording current span,
the local `correlation_id` is never assigned, so the response-stamping
path raises `NameError`; the outer fallback invokes the downstream
handler a second time and the response finally returned is the
handler's raw response, carrying none of the middleware's headers. -/
theorem C10_nonrecording_double_invocation (fcfg : FastAPIConfig)
    (tcfg : TracingConfig) (req : Request) (span : SpanState) (resp : Response)
    (r : Nat) (procTime : String)
    (hen : fcfg.enable_middleware = true) (hrec : span.recording = false) :
    (dispatchTry tcfg req span (.ok resp) r procTime).result =
      .error (.nameError "correlation_id") ∧
    dispatch fcfg tcfg req span (.ok resp) r procTime = ⟨.ok resp, span, 2⟩ := by
  have h1 : dispatchTry tcfg req span (.ok resp) r procTime =
      ⟨.error (.nameError "correlation_id"), span, 1⟩ := by
    unfold dispatchTry
    rw [hrec]
    simp
  refine ⟨by rw [h1], ?_⟩
  unfold dispatch
  rw [hen]
  simp [h1]

/-- C10, witness: a concrete disabled-tracing request — the inner path
raises `NameError "correlation_id"`, the handler runs twice, and the
returned response has no `X-Service-Name`, `X-Correlation-ID` or
`X-Processing-Time` header. -/
theorem C10_witness :
    ({} : FastAPIConfig).enable_middleware = true ∧
    ({ recording := false } : SpanState).recording = false ∧
    (dispatchTry { service_name := "svc" } { headers := [] }
      { recording := false } (.ok {}) 0 "0.0").result =
      .error (.nameError "correlation_id") ∧
    dispatch {} { service_name := "svc" } { headers := [] }
      { recording := false } (.ok {}) 0 "0.0" =
      ⟨.ok {}, { recording := false }, 2⟩ ∧
    lookupHeader ({} : Response).headers "X-Service-Name" = none ∧
    lookupHeader ({} : Response).headers "X-Correlation-ID" = none ∧
    lookupHeader ({} : Response).headers "X-Processing-Time" = none := by
  have h := C10_nonrecording_double_invocation {} { service_name := "svc" }
    { headers := [] } { recording := false } {} 0 "0.0" rfl rfl
  exact ⟨rfl, rfl, h.1, h.2, rfl, rfl, rfl⟩

/-- C5: round-trip under the default configuration.  An inbound request
bearing `x-correlation-id: req-42` processed over a recording span
yields a response whose `X-Correlation-ID` header is `req-42`, and an
outbound call made through `CorrelatedClient` in the same request
context (reading the id back off that span's attributes) dispatches the
configured propagation header `x-correlation-id: req-42`. -/
theorem C5_round_trip :
    ((dispatch {} { service_name := "svc" }
      { headers := [("x-correlation-id", "req-42")] } { recording := true }
      (.ok {}) 0 "0.001").result.map
        (fun resp => lookupHeader resp.headers "X-Correlation-ID")) =
      .ok (some "req-42") ∧
    client_request_headers {} {}
      (dispatch {} { service_name := "svc" }
        { headers := [("x-correlation-id", "req-42")] } { recording := true }
        (.ok {}) 0 "0.001").span none =
      .ok [("x-correlation-id", "req-42")] := by
  exact ⟨rfl, rfl⟩

/-! ### uuid formatting lemmas -/

theorem hexDigits_length (w : Nat) : ∀ n, (hexDigits w n).length = w := by
  induction w with
  | zero => intro n; rfl
  | succ w ih =>
    intro n
    simp [hexDigits, ih]

theorem hexVal_hexChar : ∀ d, d < 16 → hexVal (hexChar d) = d := by decide

theorem hexChar_ne_dash : ∀ d, d < 16 → hexChar d ≠ '-' := by decide

theorem hexDigits_mem_ne_dash (w : Nat) :
    ∀ n, ∀ c ∈ hexDigits w n, c ≠ '-' := by
  induction w with
  | zero => intro n c hc; simp [hexDigits] at hc
  | succ w ih =>
    intro n c hc
    simp only [hexDigits, List.mem_append, List.mem_singleton] at hc
    rcases hc with hc | hc
    · exact ih (n / 16) c hc
    · subst hc
      exact hexChar_ne_dash (n % 16) (Nat.mod_lt n (by norm_num))

/-- The key division identity behind positional decoding. -/
theorem mod_sixteen_mul (n m : Nat) (hm : 0 < m) :
    n % (16 * m) = 16 * (n / 16 % m) + n % 16 := by
  have e1 : 16 * (n / 16) + n % 16 = n := Nat.div_add_mod n 16
  have e2 : m * (n / 16 / m) + n / 16 % m = n / 16 := Nat.div_add_mod (n / 16) m
  have hr1 : n % 16 < 16 := Nat.mod_lt n (by norm_num)
  have hr2 : n / 16 % m < m := Nat.mod_lt (n / 16) hm
  have key : (16 * (n / 16 % m) + n % 16) + (16 * m) * (n / 16 / m) = n := by
    calc (16 * (n / 16 % m) + n % 16) + (16 * m) * (n / 16 / m)
        = 16 * (m * (n / 16 / m) + n / 16 % m) + n % 16 := by ring
      _ = 16 * (n / 16) + n % 16 := by rw [e2]
      _ = n := e1
  calc n % (16 * m)
      = ((16 * (n / 16 % m) + n % 16) + (16 * m) * (n / 16 / m)) % (16 * m) := by
        rw [key]
    _ = (16 * (n / 16 % m) + n % 16) % (16 * m) := Nat.add_mul_mod_self_left _ _ _
    _ = 16 * (n / 16 % m) + n % 16 := Nat.mod_eq_of_lt (by omega)

theorem decodeHex_append_last (l : List Char) (c : Char) :
    decodeHex (l ++ [c]) = decodeHex l * 16 + hexVal c := by
  unfold decodeHex
  rw [List.foldl_append]
  rfl

theorem decodeHex_hexDigits (w : Nat) : ∀ n, decodeHex (hexDigits w n) = n % 16 ^ w := by
  induction w with
  | zero => intro n; simp [hexDigits, decodeHex, Nat.mod_one]
  | succ w ih =>
    intro n
    rw [hexDigits, decodeHex_append_last, ih (n / 16),
      hexVal_hexChar (n % 16) (Nat.mod_lt n (by norm_num))]
    have h16 : (16 : Nat) ^ (w + 1) = 16 * 16 ^ w := by
      rw [pow_succ]; ring
    rw [h16, mod_sixteen_mul n (16 ^ w) (Nat.pos_pow_of_pos w (by norm_num))]
    ring

theorem filter_uuidGroups (l : List Char) (h : ∀ c ∈ l, c ≠ '-') :
    (uuidGroups l).filter (fun c => c != '-') = l := by
  have hseg : ∀ seg : List Char, (∀ c ∈ seg, c ∈ l) →
      seg.filter (fun c => c != '-') = seg := by
    intro seg hsub
    rw [List.filter_eq_self]
    intro a ha
    simp only [bne_iff_ne, ne_eq]
    exact h a (hsub a ha)
  unfold uuidGroups
  rw [List.filter_append, List.filter_cons, List.filter_append, List.filter_cons,
    List.filter_append, List.filter_cons, List.filter_append, List.filter_cons]
  simp only [show (('-' : Char) != '-') = false by rfl, if_neg Bool.false_ne_true,
    Bool.false_eq_true, if_false]
  rw [hseg _ (fun c hc => List.mem_of_mem_take hc),
    hseg _ (fun c hc => List.mem_of_mem_drop (List.mem_of_mem_take hc)),
    hseg _ (fun c hc =>
      List.mem_of_mem_drop (List.mem_of_mem_drop (List.mem_of_mem_take hc))),
    hseg _ (fun c hc => List.mem_of_mem_drop (List.mem_of_mem_drop
      (List.mem_of_mem_drop (List.mem_of_mem_take hc)))),
    hseg _ (fun c hc => List.mem_of_mem_drop (List.mem_of_mem_drop
      (List.mem_of_mem_drop (List.mem_of_mem_drop hc))))]
  simp only [List.drop_drop]
  have h20 : List.drop 20 l = List.drop 4 (List.drop 16 l) := by
    rw [List.drop_drop]
  have h16 : List.drop 16 l = List.drop 4 (List.drop 12 l) := by
    rw [List.drop_drop]
  have h12 : List.drop 12 l = List.drop 4 (List.drop 8 l) := by
    rw [List.drop_drop]
  rw [h20, List.take_append_drop, h16, List.take_append_drop, h12,
    List.take_append_drop, List.take_append_drop]

theorem uuidFormat_length (n : Nat) : (uuidFormat n).length = 36 := by
  have hl : (hexDigits 32 n).length = 32 := hexDigits_length 32 n
  show (uuidGroups (hexDigits 32 n)).length = 36
  unfold uuidGroups
  simp [List.length_append, List.length_take, List.length_drop, hl]

theorem uuidFormat_injective (n₁ n₂ : Nat) (h₁ : n₁ < 2 ^ 128) (h₂ : n₂ < 2 ^ 128)
    (h : uuidFormat n₁ = uuidFormat n₂) : n₁ = n₂ := by
  have hg : uuidGroups (hexDigits 32 n₁) = uuidGroups (hexDigits 32 n₂) :=
    congrArg String.data h
  have hfil := congrArg (List.filter (fun c => c != '-')) hg
  rw [filter_uuidGroups _ (hexDigits_mem_ne_dash 32 n₁),
    filter_uuidGroups _ (hexDigits_mem_ne_dash 32 n₂)] at hfil
  have hdec := congrArg decodeHex hfil
  rw [decodeHex_hexDigits 32 n₁, decodeHex_hexDigits 32 n₂] at hdec
  have hpow : (16 : Nat) ^ 32 = 2 ^ 128 := by norm_num
  rw [hpow, Nat.mod_eq_of_lt h₁, Nat.mod_eq_of_lt h₂] at hdec
  exact hdec

theorem uuidMask_lt (r : Nat) : uuidMask r < 2 ^ 128 := by
  unfold uuidMask
  apply Nat.or_lt_two_pow
  · exact Nat.lt_of_le_of_lt Nat.and_le_left
      (Nat.mod_lt r (Nat.pos_pow_of_pos 128 (by norm_num)))
  · apply Nat.or_lt_two_pow <;> rw [Nat.shiftLeft_eq] <;> norm_num

/-- C6: over a header map containing none of the configured correlation
headers, `get_correlation_id` returns a freshly generated identifier
when `generate_id` is enabled — a non-empty 36-character string, and
distinct across two calls whose masked 128-bit draws differ — and
returns `None` when `generate_id` is disabled. -/
theorem C6_generate_when_missing (cfg : CorrelationConfig) (hs : HeaderMap)
    (r r' : Nat)
    (hnone : ∀ m ∈ cfg.headers, lookupHeader hs (toLowerStr m) = none) :
    (cfg.generate_id = true →
      get_correlation_id cfg hs r = some (generate_correlation_id r) ∧
      (generate_correlation_id r).length = 36 ∧
      generate_correlation_id r ≠ "" ∧
      (uuidMask r ≠ uuidMask r' →
        generate_correlation_id r ≠ generate_correlation_id r')) ∧
    (cfg.generate_id = false → get_correlation_id cfg hs r = none) := by
  have hextract : extract_correlation_id cfg hs = none :=
    extractScan_all_falsy hs cfg.headers
      (fun m hm => by rw [hnone m hm]; simp [optTruthy])
  have hlen : (generate_correlation_id r).length = 36 := uuidFormat_length (uuidMask r)
  constructor
  · intro hgen
    refine ⟨?_, hlen, ?_, ?_⟩
    · unfold get_correlation_id
      rw [hextract]
      simp [optTruthy, hgen]
    · intro hemp
      rw [hemp] at hlen
      simp at hlen
    · intro hmask heq
      exact hmask (uuidFormat_injective (uuidMask r) (uuidMask r')
        (uuidMask_lt r) (uuidMask_lt r') heq)
  · intro hgen
    unfold get_correlation_id
    rw [hextract]
    simp [optTruthy, hgen]

/-- C6, witness: empty header map, default configuration — draws `0` and
`1` give distinct 36-character ids; with generation disabled the manager
yields `None`. -/
theorem C6_witness :
    get_correlation_id {} [] 0 = some (generate_correlation_id 0) ∧
    (generate_correlation_id 0).length = 36 ∧
    generate_correlation_id 0 ≠ "" ∧
    generate_correlation_id 0 ≠ generate_correlation_id 1 ∧
    get_correlation_id { generate_id := false } [] 0 = none := by
  have h := C6_generate_when_missing {} [] 0 1 (by intro m hm; rfl)
  have h' := C6_generate_when_missing { generate_id := false } [] 0 1
    (by intro m hm; rfl)
  obtain ⟨h1, h2, h3, h4⟩ := h.1 rfl
  exact ⟨h1, h2, h3, h4 (by decide), h'.2 rfl⟩

end DistObs
